import Mathlib

/-!
Verification of `.github/actions/size_pull_request/check_pr.py`.

The script has two functions:

* `WriteComment(repository, pr_number, comment)` builds the URL
  `https://api.github.com/repos/{repository}/issues/{pr_number}/comments`,
  issues one HTTP POST with three headers and JSON body `{"body": comment}`,
  and raises `RuntimeError` when the response status code is not 200.

* `RunDiff(path, repository, pr_number)` runs a git subprocess, captures its
  stdout (stderr and the exit code are never inspected), posts
  `"Output => {out}"` as a comment, then applies
  `re.search("(\d*) files changed, (\d*) insertions\(\+\), (\d*) deletions\(\-\)", out)`
  and, on a match, converts the three groups with `int` and posts a second
  comment `"files = {files} - insertions = {insertions} - deletions = {deletions}"`.

The embedding below models strings as Lean `String`/`List Char` (digits are
modelled as the ASCII decimal digits, the digits appearing in git output),
the network as an oracle assigning a status code to each request, and the
subprocess result as a record of stdout, stderr and exit code.  Python
exceptions are modelled by an `Except` result.
-/

namespace CheckPR

/-- The literal text of the regex between group 1 and group 2. -/
def litFiles : List Char := " files changed, ".data

/-- The literal text of the regex between group 2 and group 3. -/
def litIns : List Char := " insertions(+), ".data

/-- The literal text of the regex after group 3. -/
def litDel : List Char := " deletions(-)".data

/-- Greedy `\d*`: split off the maximal leading run of decimal digits. -/
def takeDigits : List Char → List Char × List Char
  | [] => ([], [])
  | c :: cs =>
    if c.isDigit then
      let p := takeDigits cs
      (c :: p.1, p.2)
    else ([], c :: cs)

/-- Match a literal: return the rest of the input when `lit` is a prefix. -/
def stripLit : List Char → List Char → Option (List Char)
  | [], s => some s
  | _ :: _, [] => none
  | l :: ls, c :: cs => if l = c then stripLit ls cs else none

/-- The three captured groups of the regex. -/
structure Groups where
  g1 : List Char
  g2 : List Char
  g3 : List Char
deriving DecidableEq

/-- Match the whole regex at the start of `s`.  Each `(\d*)` is greedy, and
since every following literal starts with a non-digit character, the greedy
maximal digit run is the only candidate, so the match is deterministic. -/
def matchHere (s : List Char) : Option Groups :=
  let p1 := takeDigits s
  match stripLit litFiles p1.2 with
  | none => none
  | some r2 =>
    let p2 := takeDigits r2
    match stripLit litIns p2.2 with
    | none => none
    | some r4 =>
      let p3 := takeDigits r4
      match stripLit litDel p3.2 with
      | none => none
      | some _ => some ⟨p1.1, p2.1, p3.1⟩

/-- `re.search`: try the pattern at every position, leftmost match first. -/
def reSearch : List Char → Option Groups
  | [] => matchHere []
  | c :: rest =>
    match matchHere (c :: rest) with
    | some g => some g
    | none => reSearch rest

/-- Numeric value of a string of decimal digits. -/
def digitsVal (s : List Char) : Nat :=
  s.foldl (fun a c => a * 10 + (c.toNat - 48)) 0

/-- Python `int()` applied to a regex group: a `\d*` group is a (possibly
empty) string of decimal digits; `int` succeeds exactly on the nonempty
ones and raises `ValueError` on the empty string. -/
def pyInt (s : List Char) : Option Nat :=
  if s.isEmpty then none
  else if s.all (fun c => c.isDigit) then some (digitsVal s) else none

/-- Process environment: only `GITHUB_TOKEN` is ever read. -/
structure Env where
  github_token : Option String
deriving DecidableEq

/-- `"Bearer %s" % os.environ.get("GITHUB_TOKEN")`: Python formats the
`None` returned for an absent variable as the string `"None"`. -/
def tokenString (env : Env) : String :=
  match env.github_token with
  | some t => t
  | none => "None"

/-- The single HTTP POST issued by `WriteComment`: its URL, headers, and
JSON body (an object with one key, `"body"`). -/
structure HttpRequest where
  url : String
  headers : List (String × String)
  jsonBody : List (String × String)
deriving DecidableEq

/-- Python exceptions raised by the script. -/
inductive PyError where
  | runtimeError (msg : String)
  | valueError (msg : String)
deriving DecidableEq

/-- The URL built by `WriteComment`. -/
def commentUrl (repository : String) (pr_number : Int) : String :=
  "https://api.github.com/repos/" ++ repository ++ "/issues/" ++
    toString pr_number ++ "/comments"

/-- The request `requests.post` sends: URL, the three headers, and the JSON
body `{"body": comment}`. -/
def commentRequest (env : Env) (repository : String) (pr_number : Int)
    (comment : String) : HttpRequest :=
  { url := commentUrl repository pr_number
    headers := [("Accept", "application/vnd.github+json"),
                ("X-GitHub-Api-Version", "2022-11-28"),
                ("Authorization", "Bearer " ++ tokenString env)]
    jsonBody := [("body", comment)] }

/-- `WriteComment`: issue the POST (the first component is the one request
sent), then raise `RuntimeError` when the response status is not 200.
`net` is the network oracle giving the status code of the response. -/
def WriteComment (env : Env) (net : HttpRequest → Nat) (repository : String)
    (pr_number : Int) (comment : String) : HttpRequest × Except PyError Unit :=
  let url := commentUrl repository pr_number
  let req := commentRequest env repository pr_number comment
  let status := net req
  (req,
    if status ≠ 200 then
      Except.error (PyError.runtimeError
        ("Post to URL " ++ url ++ " returned status code = " ++ toString status))
    else Except.ok ())

/-- Result of `proc.communicate()` plus the exit code: the script binds
stdout to `out`, discards stderr (`out, _ = ...`), and never reads the
exit code. -/
structure ProcResult where
  stdout : String
  stderr : String
  exitCode : Int
deriving DecidableEq

/-- Body of the second comment,
`f"files = {files} - insertions = {insertions} - deletions = {deletions}"`. -/
def summaryBody (files insertions deletions : Nat) : String :=
  "files = " ++ toString files ++ " - insertions = " ++ toString insertions ++
    " - deletions = " ++ toString deletions

/-- `RunDiff` after the subprocess has produced `proc`: post the raw-output
comment; if that raised, propagate.  Otherwise search the stdout for the
summary pattern; on a match convert the three groups with `int` (each
conversion can raise `ValueError` on an empty group) and post the summary
comment.  Returns the list of HTTP requests issued, in order, and the
outcome.  `path` is only used as the subprocess working directory, which the
oracle `proc` already accounts for. -/
def RunDiff (env : Env) (net : HttpRequest → Nat) (proc : ProcResult)
    (path repository : String) (pr_number : Int) :
    List HttpRequest × Except PyError Unit :=
  let _ := path
  let out := proc.stdout
  let w1 := WriteComment env net repository pr_number ("Output => " ++ out)
  match w1.2 with
  | Except.error e => ([w1.1], Except.error e)
  | Except.ok _ =>
    match reSearch out.data with
    | none => ([w1.1], Except.ok ())
    | some g =>
      match pyInt g.g1 with
      | none => ([w1.1], Except.error (PyError.valueError
          "invalid literal for int() with base 10"))
      | some files =>
        match pyInt g.g2 with
        | none => ([w1.1], Except.error (PyError.valueError
            "invalid literal for int() with base 10"))
        | some insertions =>
          match pyInt g.g3 with
          | none => ([w1.1], Except.error (PyError.valueError
              "invalid literal for int() with base 10"))
          | some deletions =>
            let w2 := WriteComment env net repository pr_number
              (summaryBody files insertions deletions)
            ([w1.1, w2.1], w2.2)

/-! Helper lemmas about the regex machinery. -/

theorem takeDigits_cons_not_digit (c : Char) (cs : List Char)
    (h : c.isDigit = false) : takeDigits (c :: cs) = ([], c :: cs) := by
  simp [takeDigits, h]

theorem takeDigits_append (d r : List Char)
    (hd : d.all (fun c => c.isDigit) = true)
    (hr : takeDigits r = ([], r)) :
    takeDigits (d ++ r) = (d, r) := by
  induction d with
  | nil => simpa using hr
  | cons c cs ih =>
    simp only [List.all_cons, Bool.and_eq_true] at hd
    simp [takeDigits, hd.1, ih hd.2]

theorem stripLit_append (l r : List Char) : stripLit l (l ++ r) = some r := by
  induction l with
  | nil => rfl
  | cons c cs ih => simp [stripLit, ih]

theorem takeDigits_litFiles_append (x : List Char) :
    takeDigits (litFiles ++ x) = ([], litFiles ++ x) := by
  rw [show litFiles = Char.ofNat 32 :: "files changed, ".data by decide]
  rw [List.cons_append]
  exact takeDigits_cons_not_digit _ _ (by decide)

theorem takeDigits_litIns_append (x : List Char) :
    takeDigits (litIns ++ x) = ([], litIns ++ x) := by
  rw [show litIns = Char.ofNat 32 :: "insertions(+), ".data by decide]
  rw [List.cons_append]
  exact takeDigits_cons_not_digit _ _ (by decide)

theorem takeDigits_litDel_append (x : List Char) :
    takeDigits (litDel ++ x) = ([], litDel ++ x) := by
  rw [show litDel = Char.ofNat 32 :: "deletions(-)".data by decide]
  rw [List.cons_append]
  exact takeDigits_cons_not_digit _ _ (by decide)

/-- Matching the pattern at the start of a string that begins with a full
pattern instance captures exactly the three digit groups of that instance. -/
theorem matchHere_pattern (d1 d2 d3 suf : List Char)
    (h1 : d1.all (fun c => c.isDigit) = true)
    (h2 : d2.all (fun c => c.isDigit) = true)
    (h3 : d3.all (fun c => c.isDigit) = true) :
    matchHere (d1 ++ litFiles ++ d2 ++ litIns ++ d3 ++ litDel ++ suf) =
      some ⟨d1, d2, d3⟩ := by
  have t1 := takeDigits_append d1
    (litFiles ++ (d2 ++ (litIns ++ (d3 ++ (litDel ++ suf))))) h1
    (takeDigits_litFiles_append _)
  have t2 := takeDigits_append d2 (litIns ++ (d3 ++ (litDel ++ suf))) h2
    (takeDigits_litIns_append _)
  have t3 := takeDigits_append d3 (litDel ++ suf) h3
    (takeDigits_litDel_append _)
  simp only [List.append_assoc]
  simp [matchHere, t1, t2, t3, stripLit_append]

theorem reSearch_of_matchHere (s : List Char) (g : Groups)
    (h : matchHere s = some g) : reSearch s = some g := by
  cases s with
  | nil => simpa [reSearch] using h
  | cons c cs => simp [reSearch, h]

/-- If the pattern matches at some suffix of `s`, then the leftmost-first
search over `s` finds a match (not necessarily the one at that suffix). -/
theorem reSearch_isSome_of_suffix (t s : List Char) (hsuf : t <:+ s)
    (h : (matchHere t).isSome = true) : (reSearch s).isSome = true := by
  induction s with
  | nil =>
    have ht : t = [] := by simpa using hsuf
    subst ht
    simpa [reSearch] using h
  | cons c cs ih =>
    rcases List.suffix_cons_iff.mp hsuf with heq | hsuf'
    · subst heq
      obtain ⟨g, hg⟩ := Option.isSome_iff_exists.mp h
      simp [reSearch, hg]
    · cases hm : matchHere (c :: cs) with
      | some g => simp [reSearch, hm]
      | none => simpa [reSearch, hm] using ih hsuf'

theorem takeDigits_fst_digits (s : List Char) :
    (takeDigits s).1.all (fun c => c.isDigit) = true := by
  induction s with
  | nil => rfl
  | cons c cs ih =>
    cases h : c.isDigit with
    | true => simp [takeDigits, h, ih]
    | false => simp [takeDigits, h]

/-- Every group captured by the pattern is a `\d*` group, hence a string of
decimal digits. -/
theorem matchHere_digits (s : List Char) (g : Groups) (h : matchHere s = some g) :
    g.g1.all (fun c => c.isDigit) = true ∧ g.g2.all (fun c => c.isDigit) = true ∧
      g.g3.all (fun c => c.isDigit) = true := by
  simp only [matchHere] at h
  split at h
  · exact absurd h (by simp)
  · split at h
    · exact absurd h (by simp)
    · split at h
      · exact absurd h (by simp)
      · injection h with h2
        subst h2
        exact ⟨takeDigits_fst_digits _, takeDigits_fst_digits _,
          takeDigits_fst_digits _⟩

theorem reSearch_digits (s : List Char) (g : Groups) (h : reSearch s = some g) :
    g.g1.all (fun c => c.isDigit) = true ∧ g.g2.all (fun c => c.isDigit) = true ∧
      g.g3.all (fun c => c.isDigit) = true := by
  induction s with
  | nil => exact matchHere_digits _ _ h
  | cons c cs ih =>
    cases hm : matchHere (c :: cs) with
    | some g' =>
      simp only [reSearch, hm] at h
      have hg : g' = g := by simpa using h
      subst hg
      exact matchHere_digits _ _ hm
    | none =>
      simp only [reSearch, hm] at h
      exact ih h

theorem pyInt_digits (s : List Char) (hd : s.all (fun c => c.isDigit) = true)
    (hne : s ≠ []) : pyInt s = some (digitsVal s) := by
  simp [pyInt, hd, List.isEmpty_iff, hne]

theorem pyInt_nil : pyInt [] = none := rfl

/-! Behaviour lemmas for `WriteComment` and `RunDiff`. -/

/-- `WriteComment` issues exactly the one request `commentRequest`. -/
theorem writeComment_fst (env : Env) (net : HttpRequest → Nat) (repo : String)
    (pr : Int) (c : String) :
    (WriteComment env net repo pr c).1 = commentRequest env repo pr c := rfl

theorem writeComment_ok (env : Env) (net : HttpRequest → Nat) (repo : String)
    (pr : Int) (c : String) (h : net (commentRequest env repo pr c) = 200) :
    (WriteComment env net repo pr c).2 = Except.ok () := by
  simp [WriteComment, h]

theorem writeComment_err (env : Env) (net : HttpRequest → Nat) (repo : String)
    (pr : Int) (c : String) (h : net (commentRequest env repo pr c) ≠ 200) :
    (WriteComment env net repo pr c).2 = Except.error (PyError.runtimeError
      ("Post to URL " ++ commentUrl repo pr ++ " returned status code = " ++
        toString (net (commentRequest env repo pr c)))) := by
  simp [WriteComment, h]

/-- When the first post fails, `RunDiff` stops after that single request. -/
theorem runDiff_first_fail (env : Env) (net : HttpRequest → Nat)
    (proc : ProcResult) (path repo : String) (pr : Int)
    (h : net (commentRequest env repo pr ("Output => " ++ proc.stdout)) ≠ 200) :
    RunDiff env net proc path repo pr =
      ([commentRequest env repo pr ("Output => " ++ proc.stdout)],
       Except.error (PyError.runtimeError
         ("Post to URL " ++ commentUrl repo pr ++ " returned status code = " ++
           toString (net (commentRequest env repo pr
             ("Output => " ++ proc.stdout)))))) := by
  simp [RunDiff, WriteComment, h]

/-- Parse miss: one comment, normal completion. -/
theorem runDiff_ok_no_match (env : Env) (net : HttpRequest → Nat)
    (proc : ProcResult) (path repo : String) (pr : Int)
    (h : net (commentRequest env repo pr ("Output => " ++ proc.stdout)) = 200)
    (hmiss : reSearch proc.stdout.data = none) :
    RunDiff env net proc path repo pr =
      ([commentRequest env repo pr ("Output => " ++ proc.stdout)],
       Except.ok ()) := by
  simp [RunDiff, WriteComment, h, hmiss]

/-- Match with three nonempty digit groups, all posts succeeding: two
comments, the second with the parsed integers, normal completion. -/
theorem runDiff_ok_match (env : Env) (net : HttpRequest → Nat)
    (proc : ProcResult) (path repo : String) (pr : Int) (g : Groups)
    (hnet : ∀ r, net r = 200)
    (hsearch : reSearch proc.stdout.data = some g)
    (hn1 : g.g1 ≠ []) (hn2 : g.g2 ≠ []) (hn3 : g.g3 ≠ []) :
    RunDiff env net proc path repo pr =
      ([commentRequest env repo pr ("Output => " ++ proc.stdout),
        commentRequest env repo pr
          (summaryBody (digitsVal g.g1) (digitsVal g.g2) (digitsVal g.g3))],
       Except.ok ()) := by
  obtain ⟨hd1, hd2, hd3⟩ := reSearch_digits _ _ hsearch
  simp [RunDiff, WriteComment, hnet, hsearch, pyInt_digits _ hd1 hn1,
    pyInt_digits _ hd2 hn2, pyInt_digits _ hd3 hn3]

/-- Match with an empty digit group, first post succeeding: `int` raises
`ValueError` before the second comment is attempted. -/
theorem runDiff_match_empty_group (env : Env) (net : HttpRequest → Nat)
    (proc : ProcResult) (path repo : String) (pr : Int) (g : Groups)
    (h : net (commentRequest env repo pr ("Output => " ++ proc.stdout)) = 200)
    (hsearch : reSearch proc.stdout.data = some g)
    (hemp : g.g1 = [] ∨ g.g2 = [] ∨ g.g3 = []) :
    RunDiff env net proc path repo pr =
      ([commentRequest env repo pr ("Output => " ++ proc.stdout)],
       Except.error (PyError.valueError
         "invalid literal for int() with base 10")) := by
  rcases hemp with h1 | h2 | h3
  · simp [RunDiff, WriteComment, h, hsearch, h1, pyInt_nil]
  · cases hp1 : pyInt g.g1 with
    | none => simp [RunDiff, WriteComment, h, hsearch, hp1]
    | some v => simp [RunDiff, WriteComment, h, hsearch, hp1, h2, pyInt_nil]
  · cases hp1 : pyInt g.g1 with
    | none => simp [RunDiff, WriteComment, h, hsearch, hp1]
    | some v =>
      cases hp2 : pyInt g.g2 with
      | none => simp [RunDiff, WriteComment, h, hsearch, hp1, hp2]
      | some w => simp [RunDiff, WriteComment, h, hsearch, hp1, hp2, h3, pyInt_nil]

/-! Claim theorems. -/

/-- C1: for every subprocess stdout matching the summary pattern
`"N1 files changed, N2 insertions(+), N3 deletions(-)"` with (nonempty)
decimal digit groups `N1, N2, N3`, possibly followed by further output, and
with every post succeeding, `RunDiff` parses exactly the integers
`N1, N2, N3` and posts a second comment whose body is exactly
`"files = N1 - insertions = N2 - deletions = N3"`. -/
theorem runDiff_posts_parsed_summary (env : Env) (net : HttpRequest → Nat)
    (errS : String) (code : Int) (path repo : String) (pr : Int)
    (d1 d2 d3 suf : List Char)
    (hnet : ∀ r, net r = 200)
    (hd1 : d1.all (fun c => c.isDigit) = true) (hn1 : d1 ≠ [])
    (hd2 : d2.all (fun c => c.isDigit) = true) (hn2 : d2 ≠ [])
    (hd3 : d3.all (fun c => c.isDigit) = true) (hn3 : d3 ≠ []) :
    RunDiff env net
      ⟨String.mk (d1 ++ litFiles ++ d2 ++ litIns ++ d3 ++ litDel ++ suf),
        errS, code⟩ path repo pr =
      ([commentRequest env repo pr ("Output => " ++
          String.mk (d1 ++ litFiles ++ d2 ++ litIns ++ d3 ++ litDel ++ suf)),
        commentRequest env repo pr
          (summaryBody (digitsVal d1) (digitsVal d2) (digitsVal d3))],
       Except.ok ()) := by
  have hm := matchHere_pattern d1 d2 d3 suf hd1 hd2 hd3
  exact runDiff_ok_match env net _ path repo pr ⟨d1, d2, d3⟩ hnet
    (reSearch_of_matchHere _ _ hm) hn1 hn2 hn3

/-- Witness for C1 at the end-to-end example
`"3 files changed, 45 insertions(+), 10 deletions(-)\n"`. -/
theorem runDiff_posts_parsed_summary_w :
    RunDiff ⟨some "tok"⟩ (fun _ => 200)
      ⟨String.mk ("3".data ++ litFiles ++ "45".data ++ litIns ++ "10".data ++
          litDel ++ "\n".data), "", 0⟩ "/repo" "org/repo" 12 =
      ([commentRequest ⟨some "tok"⟩ "org/repo" 12 ("Output => " ++
          String.mk ("3".data ++ litFiles ++ "45".data ++ litIns ++ "10".data ++
            litDel ++ "\n".data)),
        commentRequest ⟨some "tok"⟩ "org/repo" 12
          (summaryBody (digitsVal "3".data) (digitsVal "45".data)
            (digitsVal "10".data))],
       Except.ok ()) :=
  runDiff_posts_parsed_summary ⟨some "tok"⟩ (fun _ => 200) "" 0 "/repo"
    "org/repo" 12 "3".data "45".data "10".data "\n".data (fun _ => rfl)
    (by decide) (by decide) (by decide) (by decide) (by decide) (by decide)

/-- C2: for every subprocess stdout in which the summary pattern occurs
nowhere, `RunDiff` posts no second comment and raises no error: it completes
normally after the raw-output comment. -/
theorem runDiff_no_pattern_no_summary (env : Env) (net : HttpRequest → Nat)
    (proc : ProcResult) (path repo : String) (pr : Int)
    (hnet : ∀ r, net r = 200)
    (hmiss : reSearch proc.stdout.data = none) :
    RunDiff env net proc path repo pr =
      ([commentRequest env repo pr ("Output => " ++ proc.stdout)],
       Except.ok ()) :=
  runDiff_ok_no_match env net proc path repo pr (hnet _) hmiss

/-- Witness for C2 at the end-to-end example of empty stdout. -/
theorem runDiff_no_pattern_no_summary_w :
    RunDiff ⟨some "tok"⟩ (fun _ => 200) ⟨"", "fatal: not a git repository", 128⟩
      "/repo" "org/repo" 12 =
      ([commentRequest ⟨some "tok"⟩ "org/repo" 12 ("Output => " ++ "")],
       Except.ok ()) :=
  runDiff_no_pattern_no_summary ⟨some "tok"⟩ (fun _ => 200)
    ⟨"", "fatal: not a git repository", 128⟩ "/repo" "org/repo" 12
    (fun _ => rfl) rfl

/-- C3: `WriteComment` raises a runtime error if and only if the response
status code is not 200; on 200 it returns normally, and on any non-200
status the error message contains both the constructed URL and the literal
status code. -/
theorem writeComment_raises_iff_not_200 (env : Env) (net : HttpRequest → Nat)
    (repo : String) (pr : Int) (c : String) :
    ((WriteComment env net repo pr c).2 = Except.ok () ↔
      net (commentRequest env repo pr c) = 200) ∧
    (net (commentRequest env repo pr c) ≠ 200 →
      ∃ msg, (WriteComment env net repo pr c).2 =
          Except.error (PyError.runtimeError msg) ∧
        (commentUrl repo pr).data <:+: msg.data ∧
        (toString (net (commentRequest env repo pr c))).data <:+: msg.data) := by
  constructor
  · constructor
    · intro hok
      by_contra hne
      rw [writeComment_err env net repo pr c hne] at hok
      exact Except.noConfusion hok
    · exact writeComment_ok env net repo pr c
  · intro hne
    refine ⟨"Post to URL " ++ commentUrl repo pr ++ " returned status code = " ++
      toString (net (commentRequest env repo pr c)),
      writeComment_err env net repo pr c hne, ?_, ?_⟩
    · refine ⟨"Post to URL ".data,
        (" returned status code = " ++
          toString (net (commentRequest env repo pr c))).data, ?_⟩
      simp [String.data_append, List.append_assoc]
    · refine List.IsSuffix.isInfix ⟨("Post to URL " ++ commentUrl repo pr ++
        " returned status code = ").data, ?_⟩
      simp [String.data_append, List.append_assoc]

/-- Witness for C3: a 404 response at concrete inputs. -/
theorem writeComment_raises_iff_not_200_w :
    ∃ msg, (WriteComment ⟨some "tok"⟩ (fun _ => 404) "org/repo" 7 "hello").2 =
        Except.error (PyError.runtimeError msg) ∧
      (commentUrl "org/repo" 7).data <:+: msg.data ∧
      (toString (404 : Nat)).data <:+: msg.data :=
  (writeComment_raises_iff_not_200 ⟨some "tok"⟩ (fun _ => 404)
    "org/repo" 7 "hello").2 (by decide)

/-- C4 counterexample: a stdout on which the summary regex matches, every
post succeeds, and yet no second comment is posted — the middle `\d*` group
is empty, so the integer conversion raises before the summary post. -/
theorem runDiff_match_without_summary_cex :
    (reSearch "2 files changed,  insertions(+), 3 deletions(-)".data).isSome =
      true ∧
    (RunDiff ⟨some "tok"⟩ (fun _ => 200)
        ⟨"2 files changed,  insertions(+), 3 deletions(-)", "", 0⟩
        "/repo" "org/repo" 7).1.length = 1 ∧
    (RunDiff ⟨some "tok"⟩ (fun _ => 200)
        ⟨"2 files changed,  insertions(+), 3 deletions(-)", "", 0⟩
        "/repo" "org/repo" 7).2 =
      Except.error (PyError.valueError
        "invalid literal for int() with base 10") := by
  have hm : reSearch "2 files changed,  insertions(+), 3 deletions(-)".data =
      some ⟨"2".data, [], "3".data⟩ := by decide
  have hr := runDiff_match_empty_group ⟨some "tok"⟩ (fun _ => 200)
    ⟨"2 files changed,  insertions(+), 3 deletions(-)", "", 0⟩
    "/repo" "org/repo" 7 ⟨"2".data, [], "3".data⟩ rfl hm (Or.inr (Or.inl rfl))
  refine ⟨by rw [hm]; rfl, ?_, ?_⟩
  · rw [hr]
    rfl
  · rw [hr]

/-- C4 (amended): with every post succeeding, the raw-output comment is
always posted first, and a summary comment is posted second if and only if
the stdout matches the summary pattern with all three digit groups nonempty;
exactly two comments are posted in that case and exactly one otherwise. -/
theorem runDiff_comment_count (env : Env) (net : HttpRequest → Nat)
    (proc : ProcResult) (path repo : String) (pr : Int)
    (hnet : ∀ r, net r = 200) :
    (RunDiff env net proc path repo pr).1.head? =
      some (commentRequest env repo pr ("Output => " ++ proc.stdout)) ∧
    ((RunDiff env net proc path repo pr).1.length = 2 ↔
      ∃ g, reSearch proc.stdout.data = some g ∧
        g.g1 ≠ [] ∧ g.g2 ≠ [] ∧ g.g3 ≠ []) ∧
    ((RunDiff env net proc path repo pr).1.length = 2 ∨
      (RunDiff env net proc path repo pr).1.length = 1) := by
  cases hm : reSearch proc.stdout.data with
  | none =>
    rw [runDiff_ok_no_match env net proc path repo pr (hnet _) hm]
    refine ⟨rfl, ⟨?_, ?_⟩, Or.inr rfl⟩
    · intro h; simp at h
    · rintro ⟨g, hg, -, -, -⟩
      exact Option.noConfusion hg
  | some g =>
    by_cases hemp : g.g1 = [] ∨ g.g2 = [] ∨ g.g3 = []
    · rw [runDiff_match_empty_group env net proc path repo pr g (hnet _) hm hemp]
      refine ⟨rfl, ⟨?_, ?_⟩, Or.inr rfl⟩
      · intro h; simp at h
      · rintro ⟨g', hg', hq1, hq2, hq3⟩
        have hgg : g = g' := by simpa using hg'
        subst hgg
        rcases hemp with h | h | h
        · exact (hq1 h).elim
        · exact (hq2 h).elim
        · exact (hq3 h).elim
    · push_neg at hemp
      obtain ⟨hq1, hq2, hq3⟩ := hemp
      rw [runDiff_ok_match env net proc path repo pr g hnet hm hq1 hq2 hq3]
      exact ⟨rfl, ⟨fun _ => ⟨g, rfl, hq1, hq2, hq3⟩, fun _ => rfl⟩, Or.inl rfl⟩

/-- Witness for the amended C4 at the empty-stdout example. -/
theorem runDiff_comment_count_w :
    (RunDiff ⟨some "tok"⟩ (fun _ => 200) ⟨"", "", 0⟩ "/r" "org/repo" 3).1.head? =
      some (commentRequest ⟨some "tok"⟩ "org/repo" 3 ("Output => " ++ "")) ∧
    ((RunDiff ⟨some "tok"⟩ (fun _ => 200) ⟨"", "", 0⟩ "/r" "org/repo"
        3).1.length = 2 ↔
      ∃ g, reSearch "".data = some g ∧ g.g1 ≠ [] ∧ g.g2 ≠ [] ∧ g.g3 ≠ []) ∧
    ((RunDiff ⟨some "tok"⟩ (fun _ => 200) ⟨"", "", 0⟩ "/r" "org/repo"
        3).1.length = 2 ∨
      (RunDiff ⟨some "tok"⟩ (fun _ => 200) ⟨"", "", 0⟩ "/r" "org/repo"
        3).1.length = 1) :=
  runDiff_comment_count ⟨some "tok"⟩ (fun _ => 200) ⟨"", "", 0⟩ "/r" "org/repo"
    3 (fun _ => rfl)

/-- C5: `WriteComment` issues exactly one HTTP POST, to the constructed
URL, with headers Accept, X-GitHub-Api-Version 2022-11-28 and Authorization
Bearer token (the token being the GITHUB_TOKEN environment value read at
call time), and with JSON body carrying the comment under the key body. -/
theorem writeComment_request_shape (env : Env) (net : HttpRequest → Nat)
    (repo : String) (pr : Int) (c : String) (tok : String)
    (htok : env.github_token = some tok) :
    (WriteComment env net repo pr c).1 =
      { url := "https://api.github.com/repos/" ++ repo ++ "/issues/" ++
          toString pr ++ "/comments"
        headers := [("Accept", "application/vnd.github+json"),
                    ("X-GitHub-Api-Version", "2022-11-28"),
                    ("Authorization", "Bearer " ++ tok)]
        jsonBody := [("body", c)] } := by
  rw [writeComment_fst]
  simp [commentRequest, commentUrl, tokenString, htok]

/-- Witness for C5 at concrete inputs. -/
theorem writeComment_request_shape_w :
    (WriteComment ⟨some "secret"⟩ (fun _ => 200) "org/repo" 5 "hi").1 =
      { url := "https://api.github.com/repos/" ++ "org/repo" ++ "/issues/" ++
          toString (5 : Int) ++ "/comments"
        headers := [("Accept", "application/vnd.github+json"),
                    ("X-GitHub-Api-Version", "2022-11-28"),
                    ("Authorization", "Bearer " ++ "secret")]
        jsonBody := [("body", "hi")] } :=
  writeComment_request_shape ⟨some "secret"⟩ (fun _ => 200) "org/repo" 5 "hi"
    "secret" rfl

/-- C6: when GITHUB_TOKEN is unset, the POST carries the literal header
value Bearer None — no usable credential — and a non-200 rejection by the
remote API triggers the runtime-error failure path. -/
theorem writeComment_no_token (env : Env) (net : HttpRequest → Nat)
    (repo : String) (pr : Int) (c : String)
    (htok : env.github_token = none) :
    (WriteComment env net repo pr c).1.headers =
      [("Accept", "application/vnd.github+json"),
       ("X-GitHub-Api-Version", "2022-11-28"),
       ("Authorization", "Bearer None")] ∧
    (net (commentRequest env repo pr c) ≠ 200 →
      ∃ msg, (WriteComment env net repo pr c).2 =
        Except.error (PyError.runtimeError msg)) := by
  constructor
  · rw [writeComment_fst]
    simp [commentRequest, tokenString, htok]
  · intro hne
    exact ⟨_, writeComment_err env net repo pr c hne⟩

/-- Witness for C6: unset token, 403 response. -/
theorem writeComment_no_token_w :
    (WriteComment ⟨none⟩ (fun _ => 403) "org/repo" 2 "hi").1.headers =
      [("Accept", "application/vnd.github+json"),
       ("X-GitHub-Api-Version", "2022-11-28"),
       ("Authorization", "Bearer None")] ∧
    ∃ msg, (WriteComment ⟨none⟩ (fun _ => 403) "org/repo" 2 "hi").2 =
      Except.error (PyError.runtimeError msg) :=
  ⟨(writeComment_no_token ⟨none⟩ (fun _ => 403) "org/repo" 2 "hi" rfl).1,
   (writeComment_no_token ⟨none⟩ (fun _ => 403) "org/repo" 2 "hi" rfl).2
     (by decide)⟩

/-- C7: `RunDiff` depends only on the captured stdout — two subprocess
results with equal stdout but any exit codes and stderr contents yield the
same sequence of comments and the same outcome. -/
theorem runDiff_ignores_exit_code_and_stderr (env : Env)
    (net : HttpRequest → Nat) (path repo : String) (pr : Int)
    (p1 p2 : ProcResult) (h : p1.stdout = p2.stdout) :
    RunDiff env net p1 path repo pr = RunDiff env net p2 path repo pr := by
  unfold RunDiff
  rw [h]

/-- Witness for C7: same stdout, different exit code and stderr. -/
theorem runDiff_ignores_exit_code_and_stderr_w :
    RunDiff ⟨some "tok"⟩ (fun _ => 200) ⟨"out", "", 0⟩ "/r" "org/repo" 8 =
      RunDiff ⟨some "tok"⟩ (fun _ => 200) ⟨"out", "error: diff failed", 1⟩
        "/r" "org/repo" 8 :=
  runDiff_ignores_exit_code_and_stderr ⟨some "tok"⟩ (fun _ => 200) "/r"
    "org/repo" 8 ⟨"out", "", 0⟩ ⟨"out", "error: diff failed", 1⟩ rfl

/-- C8: if the first (raw-output) post fails with a non-200 status,
`RunDiff` raises at once: the trace holds exactly that one request, so no
summary request is ever issued, whatever the stdout contains. -/
theorem runDiff_first_post_failure (env : Env) (net : HttpRequest → Nat)
    (proc : ProcResult) (path repo : String) (pr : Int)
    (hfail : net (commentRequest env repo pr
      ("Output => " ++ proc.stdout)) ≠ 200) :
    (RunDiff env net proc path repo pr).1 =
      [commentRequest env repo pr ("Output => " ++ proc.stdout)] ∧
    ∃ msg, (RunDiff env net proc path repo pr).2 =
      Except.error (PyError.runtimeError msg) := by
  rw [runDiff_first_fail env net proc path repo pr hfail]
  exact ⟨rfl, _, rfl⟩

/-- Witness for C8: the network rejects every post with 500 while the
stdout would have produced a summary. -/
theorem runDiff_first_post_failure_w :
    (RunDiff ⟨some "tok"⟩ (fun _ => 500)
        ⟨"3 files changed, 4 insertions(+), 5 deletions(-)", "", 0⟩
        "/r" "org/repo" 6).1 =
      [commentRequest ⟨some "tok"⟩ "org/repo" 6
        ("Output => " ++ "3 files changed, 4 insertions(+), 5 deletions(-)")] ∧
    ∃ msg, (RunDiff ⟨some "tok"⟩ (fun _ => 500)
        ⟨"3 files changed, 4 insertions(+), 5 deletions(-)", "", 0⟩
        "/r" "org/repo" 6).2 =
      Except.error (PyError.runtimeError msg) :=
  runDiff_first_post_failure ⟨some "tok"⟩ (fun _ => 500)
    ⟨"3 files changed, 4 insertions(+), 5 deletions(-)", "", 0⟩
    "/r" "org/repo" 6 (by decide)

/-- C9: each digit group of the regex is a zero-or-more group, so the
stdout " files changed,  insertions(+),  deletions(-)" (every digit group
empty) matches the pattern, and the integer conversion of the empty first
group then raises an uncaught ValueError instead of silently skipping
the summary: after the raw-output comment, RunDiff ends in the error. -/
theorem runDiff_empty_groups_valueError :
    reSearch " files changed,  insertions(+),  deletions(-)".data =
      some ⟨[], [], []⟩ ∧
    RunDiff ⟨some "tok"⟩ (fun _ => 200)
        ⟨" files changed,  insertions(+),  deletions(-)", "", 0⟩
        "/repo" "org/repo" 3 =
      ([commentRequest ⟨some "tok"⟩ "org/repo" 3
          ("Output => " ++ " files changed,  insertions(+),  deletions(-)")],
       Except.error (PyError.valueError
         "invalid literal for int() with base 10")) := by
  have hm : reSearch " files changed,  insertions(+),  deletions(-)".data =
      some ⟨[], [], []⟩ := by decide
  exact ⟨hm, runDiff_match_empty_group ⟨some "tok"⟩ (fun _ => 200)
    ⟨" files changed,  insertions(+),  deletions(-)", "", 0⟩
    "/repo" "org/repo" 3 ⟨[], [], []⟩ rfl hm (Or.inl rfl)⟩

/-- C10 counterexample: a stdout that is a prefix followed by a complete
summary line "3 files changed, 45 insertions(+), 10 deletions(-)" (empty
suffix), on which RunDiff posts no summary comment at all: the leftmost
occurrence of the pattern lies inside the prefix and has empty digit
groups, so the integer conversion raises first. -/
theorem runDiff_prefixed_summary_cex :
    (" files changed,  insertions(+),  deletions(-)3 files changed, 45 insertions(+), 10 deletions(-)").data =
      " files changed,  insertions(+),  deletions(-)".data ++
        ("3".data ++ litFiles ++ "45".data ++ litIns ++ "10".data ++ litDel) ++
        ([] : List Char) ∧
    (RunDiff ⟨some "tok"⟩ (fun _ => 200)
        ⟨" files changed,  insertions(+),  deletions(-)3 files changed, 45 insertions(+), 10 deletions(-)",
          "", 0⟩ "/repo" "org/repo" 9).1.length = 1 ∧
    (RunDiff ⟨some "tok"⟩ (fun _ => 200)
        ⟨" files changed,  insertions(+),  deletions(-)3 files changed, 45 insertions(+), 10 deletions(-)",
          "", 0⟩ "/repo" "org/repo" 9).2 =
      Except.error (PyError.valueError
        "invalid literal for int() with base 10") := by
  have hm : reSearch (" files changed,  insertions(+),  deletions(-)3 files changed, 45 insertions(+), 10 deletions(-)").data =
      some ⟨[], [], []⟩ := by decide
  have hr := runDiff_match_empty_group ⟨some "tok"⟩ (fun _ => 200)
    ⟨" files changed,  insertions(+),  deletions(-)3 files changed, 45 insertions(+), 10 deletions(-)",
      "", 0⟩ "/repo" "org/repo" 9 ⟨[], [], []⟩ rfl hm (Or.inl rfl)
  refine ⟨by decide, ?_, ?_⟩
  · rw [hr]
    rfl
  · rw [hr]

/-- C10 (amended): parsing uses substring search, not whole-string
matching: for every stdout of the form prefix ++ summary line ++ suffix
(nonempty decimal digit groups in the summary line, arbitrary surrounding
text) the search finds the leftmost occurrence of the pattern; its three
captured groups are digit strings, and provided all three are nonempty,
RunDiff posts the summary comment for their integer values. -/
theorem runDiff_substring_search (env : Env) (net : HttpRequest → Nat)
    (errS : String) (code : Int) (path repo : String) (pr : Int)
    (pre d1 d2 d3 suf : List Char)
    (hnet : ∀ r, net r = 200)
    (hd1 : d1.all (fun c => c.isDigit) = true) (hn1 : d1 ≠ [])
    (hd2 : d2.all (fun c => c.isDigit) = true) (hn2 : d2 ≠ [])
    (hd3 : d3.all (fun c => c.isDigit) = true) (hn3 : d3 ≠ []) :
    ∃ g, reSearch (String.mk (pre ++
        (d1 ++ litFiles ++ d2 ++ litIns ++ d3 ++ litDel) ++ suf)).data =
        some g ∧
      g.g1.all (fun c => c.isDigit) = true ∧
      g.g2.all (fun c => c.isDigit) = true ∧
      g.g3.all (fun c => c.isDigit) = true ∧
      (g.g1 ≠ [] → g.g2 ≠ [] → g.g3 ≠ [] →
        RunDiff env net ⟨String.mk (pre ++
            (d1 ++ litFiles ++ d2 ++ litIns ++ d3 ++ litDel) ++ suf),
            errS, code⟩ path repo pr =
          ([commentRequest env repo pr ("Output => " ++ String.mk (pre ++
              (d1 ++ litFiles ++ d2 ++ litIns ++ d3 ++ litDel) ++ suf)),
            commentRequest env repo pr (summaryBody (digitsVal g.g1)
              (digitsVal g.g2) (digitsVal g.g3))],
           Except.ok ())) := by
  have hm : matchHere (d1 ++ litFiles ++ d2 ++ litIns ++ d3 ++ litDel ++ suf) =
      some ⟨d1, d2, d3⟩ := matchHere_pattern d1 d2 d3 suf hd1 hd2 hd3
  have hsuffix : (d1 ++ litFiles ++ d2 ++ litIns ++ d3 ++ litDel ++ suf) <:+
      (pre ++ (d1 ++ litFiles ++ d2 ++ litIns ++ d3 ++ litDel) ++ suf) := by
    simp [List.append_assoc]
  have hsome : (reSearch (pre ++
      (d1 ++ litFiles ++ d2 ++ litIns ++ d3 ++ litDel) ++ suf)).isSome = true :=
    reSearch_isSome_of_suffix _ _ hsuffix (by rw [hm]; rfl)
  obtain ⟨g, hg⟩ := Option.isSome_iff_exists.mp hsome
  obtain ⟨hq1, hq2, hq3⟩ := reSearch_digits _ _ hg
  exact ⟨g, hg, hq1, hq2, hq3, fun hne1 hne2 hne3 =>
    runDiff_ok_match env net _ path repo pr g hnet hg hne1 hne2 hne3⟩

/-- Witness for the amended C10: a summary line surrounded by other text. -/
theorem runDiff_substring_search_w :
    ∃ g, reSearch (String.mk ("On branch main\n".data ++
        ("2".data ++ litFiles ++ "3".data ++ litIns ++ "4".data ++ litDel) ++
        "\n".data)).data = some g ∧
      g.g1.all (fun c => c.isDigit) = true ∧
      g.g2.all (fun c => c.isDigit) = true ∧
      g.g3.all (fun c => c.isDigit) = true ∧
      (g.g1 ≠ [] → g.g2 ≠ [] → g.g3 ≠ [] →
        RunDiff ⟨some "tok"⟩ (fun _ => 200) ⟨String.mk ("On branch main\n".data ++
            ("2".data ++ litFiles ++ "3".data ++ litIns ++ "4".data ++ litDel) ++
            "\n".data), "", 0⟩ "/repo" "org/repo" 4 =
          ([commentRequest ⟨some "tok"⟩ "org/repo" 4
              ("Output => " ++ String.mk ("On branch main\n".data ++
                ("2".data ++ litFiles ++ "3".data ++ litIns ++ "4".data ++
                  litDel) ++ "\n".data)),
            commentRequest ⟨some "tok"⟩ "org/repo" 4
              (summaryBody (digitsVal g.g1) (digitsVal g.g2)
                (digitsVal g.g3))],
           Except.ok ())) :=
  runDiff_substring_search ⟨some "tok"⟩ (fun _ => 200) "" 0 "/repo" "org/repo"
    4 "On branch main\n".data "2".data "3".data "4".data "\n".data
    (fun _ => rfl) (by decide) (by decide) (by decide) (by decide) (by decide)
    (by decide)

end CheckPR
